import Mathlib

/-!
Shallow embedding of the parser-service routes of the
recommender-iac-pipeline tutorial (src/parser-service/routes.js).

The file routes.js contains two HTTP handlers:

* applyRecommendations: lists pending recommendations for a category
  (route parameter, uppercased), clones the target repository, applies
  the recommendations, commits, opens a pull request, persists a commit
  record and claims the recommendations.

* ci: decodes a Cloud Build event, resolves parent commits, looks the
  parent commits up in the persisted index, refreshes etags and marks
  the resolved recommendations succeeded.

The external collaborator modules (recommender, terraform, sourcecontrol,
github, db) are not part of the core: they are modelled as an oracle
record of pure functions, and every call the handlers make to them is
recorded in an event trace, in program order.  Responses written through
the Express response object are recorded as a list of response events.
-/

namespace ParserService

/-- A recommendation as passed around by routes.js: an identifier plus the
optimistic-concurrency etag. -/
structure Recommendation where
  id : String
  etag : String
  deriving DecidableEq, Repr

/-- Result of sourceControl.commitChanges: the branch pushed and the commit
identifier produced. -/
structure CommitResult where
  branch : String
  commit : String
  deriving DecidableEq, Repr

/-- One element of the result of recommender.getRecommendations: the
recommendation name and a fresh etag. -/
structure RecoResult where
  name : String
  etag : String
  deriving DecidableEq, Repr

/-- One collaborator call made by a handler, with the arguments of the call.
The constructors correspond one to one to the collaborator functions
invoked in routes.js. -/
inductive Call where
  | listRecs (category : String) (projectIDs : List String)
  | cloneRepository (remote : String) (localName : String)
  | applyRecs (category : String) (repoName : String) (recs : List Recommendation)
  | commitChanges (message : String) (repoName : String)
  | createPullRequest (remote : String) (branch : String) (title : String)
  | createCommit (repoName : String) (commitID : String) (recs : List Recommendation)
  | setRecommendationStatus (recs : List Recommendation) (newState : String)
  | getParentCommits (fullRepoName : String) (commitID : String)
  | getCommit (repoName : String) (commitID : String)
  | getRecommendations (ids : List String)
  deriving DecidableEq, Repr

/-- A write through the Express response object.
statusSend models res.status(c).send(body); sendStatus models
res.sendStatus(c); sendStatusEnd models the chain res.sendStatus(c).end(body)
as written in routes.js, recording the code and the body argument of end;
endBody models res.end(body). -/
inductive Response where
  | statusSend (code : Nat) (body : String)
  | sendStatus (code : Nat)
  | sendStatusEnd (code : Nat) (body : String)
  | endBody (body : String)
  deriving DecidableEq, Repr

/-- Oracle for the collaborator functions used by applyRecommendations.
The field names are the names of the functions routes.js imports.  The
field now stands for (new Date()).toLocaleString() at commit time. -/
structure ApplyCollab where
  listVMResizeRecommendations : List String → List Recommendation
  listIAMRecommendations : List String → List Recommendation
  applyVMResizeRecommendations : String → List Recommendation → List Recommendation
  applyIAMRecommendations : String → List Recommendation → List Recommendation
  commitChanges : String → String → CommitResult
  now : String

/-- Result of one run of a handler: the responses written, in order, and
the trace of collaborator calls, in order. -/
structure RunResult where
  responses : List Response
  trace : List Call
  deriving DecidableEq, Repr

/-- The JavaScript String.prototype.toUpperCase call applied to the route
parameter on line 28 of routes.js, modelled characterwise over the ASCII
range (all category tags are ASCII). -/
def toUpperCase (s : String) : String := ⟨s.data.map Char.toUpper⟩

/-- The message of the TypeError raised when the switch falls through with
both strategy variables left undefined and line 48 of routes.js calls
listRecommendationsFn. -/
def typeErrorMessage : String := "TypeError: listRecommendationsFn is not a function"

/-- The switch statement of routes.js lines 34-45: the category tag selects
the pair (listRecommendationsFn, applyRecommendationsFn); an unknown tag
leaves both undefined (none). -/
def strategyFor (C : ApplyCollab) (type : String) :
    Option ((List String → List Recommendation) ×
      (String → List Recommendation → List Recommendation)) :=
  match type with
  | "VM" => some (C.listVMResizeRecommendations, C.applyVMResizeRecommendations)
  | "IAM" => some (C.listIAMRecommendations, C.applyIAMRecommendations)
  | _ => none

/-- The commit message of routes.js lines 64-66. -/
def commitMessage (type now : String) : String :=
  if type = "VM" then
    "Recommended VM Rightsizing as on " ++ now
  else
    "Recommended IAM Updates as on " ++ now

/-- The applyRecommendations handler of routes.js lines 23-91.
baseRepo is process.env.GITHUB_ACCOUNT, repoName and projectIDs come from
the request body, typeParam is the route parameter req.params.type.

In the unknown-category branch the switch default sends the 500 response
but does not return: execution falls through to line 48, the call of the
undefined listRecommendationsFn throws a TypeError before any collaborator
is reached, and the catch block answers a second time with
res.sendStatus(500).end(e.toString()). -/
def applyRecommendations (C : ApplyCollab) (baseRepo repoName : String)
    (projectIDs : List String) (typeParam : String) : RunResult :=
  let type := toUpperCase typeParam
  match strategyFor C type with
  | none =>
      ⟨[.statusSend 500 "Unknown operation", .sendStatusEnd 500 typeErrorMessage], []⟩
  | some (listRecommendationsFn, applyRecommendationsFn) =>
      let recommendations := listRecommendationsFn projectIDs
      if recommendations.length = 0 then
        ⟨[.endBody "Nothing to apply"], [.listRecs type projectIDs]⟩
      else
        let remote := "git@" ++ baseRepo ++ "/" ++ repoName ++ ".git"
        let recommendationsToClaim := applyRecommendationsFn repoName recommendations
        if recommendationsToClaim.length > 0 then
          let message := commitMessage type C.now
          let commit := C.commitChanges message repoName
          ⟨[.sendStatusEnd 201 ""],
           [.listRecs type projectIDs,
            .cloneRepository remote repoName,
            .applyRecs type repoName recommendations,
            .commitChanges message repoName,
            .createPullRequest remote commit.branch message,
            .createCommit repoName commit.commit recommendationsToClaim,
            .setRecommendationStatus recommendationsToClaim "markClaimed"]⟩
        else
          ⟨[.sendStatusEnd 201 ""],
           [.listRecs type projectIDs,
            .cloneRepository remote repoName,
            .applyRecs type repoName recommendations]⟩

/-- The substitutions object of a Cloud Build event payload. -/
structure Substitutions where
  COMMIT_SHA : String
  REPO_NAME : String
  deriving DecidableEq, Repr

/-- The decoded Cloud Build event payload: the build status string and the
optional substitutions object (absent models a falsy value). -/
structure BuildPayload where
  status : String
  substitutions : Option Substitutions
  deriving DecidableEq, Repr

/-- Oracle for the collaborator functions used by the ci handler. -/
structure CiCollab where
  getParentCommits : String → String → List String
  getCommit : String → String → List String
  getRecommendations : List String → List RecoResult

/-- Outcome of a ci run: either the handler wrote a response (with the
trace of collaborator calls made), or an exception escaped the handler
before the try block and no response was written at all. -/
inductive CiOutcome where
  | responded (response : Response) (trace : List Call)
  | uncaught (err : String)
  deriving DecidableEq, Repr

/-- The ci handler of routes.js lines 101-156.  The base64/JSON decoding of
lines 102-103 happens before the try block, so a decode failure is an
exception that escapes the handler: no catch runs and no response is
written.  The decoded argument carries either the payload or the decode
error. -/
def ci (C : CiCollab) (baseRepo : String)
    (decoded : Except String BuildPayload) : CiOutcome :=
  match decoded with
  | .error e => .uncaught e
  | .ok payload =>
    if payload.status = "SUCCESS" then
      match payload.substitutions with
      | some subs =>
        let commitID := subs.COMMIT_SHA
        let repoName := subs.REPO_NAME
        let fullRepoName := baseRepo ++ "/" ++ repoName
        let parentCommits := C.getParentCommits fullRepoName commitID
        let dbLookUpPromisesResult := parentCommits.map (fun c => C.getCommit repoName c)
        let recommendationIDs :=
          dbLookUpPromisesResult.foldl (fun acc result => acc ++ result) []
        let recommendationsResult := C.getRecommendations recommendationIDs
        let recommendations :=
          recommendationsResult.map (fun reco => Recommendation.mk reco.name reco.etag)
        .responded (.sendStatus 201)
          ([Call.getParentCommits fullRepoName commitID] ++
           parentCommits.map (fun c => Call.getCommit repoName c) ++
           [Call.getRecommendations recommendationIDs,
            Call.setRecommendationStatus recommendations "markSucceeded"])
      | none => .responded (.sendStatus 200) []
    else .responded (.sendStatus 200) []

/-- The trace of a ci outcome (empty when the exception escaped). -/
def ciTrace : CiOutcome → List Call
  | .responded _ t => t
  | .uncaught _ => []

/-- Projects a collaborator call to the recommendation IDs it passes to
setRecommendationStatus with the given target state, none otherwise. -/
def statusCallProj (st : String) : Call → Option (List String)
  | .setRecommendationStatus recs s => if s = st then some (recs.map (·.id)) else none
  | _ => none

/-- All recommendation IDs passed to setRecommendationStatus calls with the
given target state, flattened in call order. -/
def statusCallIDs (t : List Call) (st : String) : List String :=
  (t.filterMap (statusCallProj st)).flatten

/-- Collaborator oracle whose listing functions return no recommendations. -/
def noopCollab : ApplyCollab where
  listVMResizeRecommendations := fun _ => []
  listIAMRecommendations := fun _ => []
  applyVMResizeRecommendations := fun _ _ => []
  applyIAMRecommendations := fun _ _ => []
  commitChanges := fun _ _ => ⟨"main", "deadbeef"⟩
  now := "1/1/2026, 10:00:00 AM"

/-- Collaborator oracle that lists one recommendation and whose applier
claims everything it is given. -/
def passCollab : ApplyCollab where
  listVMResizeRecommendations := fun _ => [⟨"rec-1", "etag-1"⟩]
  listIAMRecommendations := fun _ => [⟨"rec-2", "etag-2"⟩]
  applyVMResizeRecommendations := fun _ recs => recs
  applyIAMRecommendations := fun _ recs => recs
  commitChanges := fun _ _ => ⟨"recommender-20260101", "abc123"⟩
  now := "1/1/2026, 10:00:00 AM"

/-- Collaborator oracle that lists one recommendation but whose applier
claims none of them (every change is a no-op). -/
def dropCollab : ApplyCollab where
  listVMResizeRecommendations := fun _ => [⟨"rec-1", "etag-1"⟩]
  listIAMRecommendations := fun _ => [⟨"rec-2", "etag-2"⟩]
  applyVMResizeRecommendations := fun _ _ => []
  applyIAMRecommendations := fun _ _ => []
  commitChanges := fun _ _ => ⟨"recommender-20260101", "abc123"⟩
  now := "1/1/2026, 10:00:00 AM"

/-- Ci collaborator oracle with no parent commits and an empty index. -/
def noopCiCollab : CiCollab where
  getParentCommits := fun _ _ => []
  getCommit := fun _ _ => []
  getRecommendations := fun _ => []

/-- Ci collaborator oracle with two parent commits, an index that holds no
record for any commit, and a token refresh that answers one fresh etag per
requested ID. -/
def emptyIndexCiCollab : CiCollab where
  getParentCommits := fun _ _ => ["c1", "c2"]
  getCommit := fun _ _ => []
  getRecommendations := fun ids => ids.map (fun i => ⟨i, "etag-fresh"⟩)

/-- Ci collaborator oracle with two parent commits whose index records
overlap: c1 maps to r1, r2 and c2 maps to r2, r3.  Token refresh answers
one fresh etag per requested ID. -/
def overlapCiCollab : CiCollab where
  getParentCommits := fun _ _ => ["c1", "c2"]
  getCommit := fun _ c =>
    if c = "c1" then ["r1", "r2"] else if c = "c2" then ["r2", "r3"] else []
  getRecommendations := fun ids => ids.map (fun i => ⟨i, "etag-fresh"⟩)

/-! Helper lemmas shared by the claim theorems. -/

/-- The reduce of routes.js line 125 is a left fold of list append: it
computes the concatenation of all the per-ancestor lists. -/
theorem foldl_append_eq_flatten {α : Type} (l : List (List α)) (acc : List α) :
    l.foldl (fun a r => a ++ r) acc = acc ++ l.flatten := by
  induction l generalizing acc with
  | nil => simp
  | cons x xs ih => simp [ih]

/-- Filtering with the constantly-none function keeps nothing. -/
theorem filterMap_none {α β : Type} (l : List α) :
    (l.filterMap fun _ => (none : Option β)) = [] := by
  induction l with
  | nil => rfl
  | cons x xs ih => simp [List.filterMap_cons, ih]

/-- String append is associative. -/
theorem string_append_assoc (a b c : String) : a ++ b ++ c = a ++ (b ++ c) := by
  apply String.ext
  simp [String.data_append]

/-- Branch lemma: unsupported category.  The switch default answers 500 and
falls through; the undefined list function throws before any collaborator
runs and the catch answers 500 a second time. -/
theorem applyRun_unknown (C : ApplyCollab) (baseRepo repoName : String)
    (projectIDs : List String) (typeParam : String)
    (hs : strategyFor C (toUpperCase typeParam) = none) :
    applyRecommendations C baseRepo repoName projectIDs typeParam =
      ⟨[.statusSend 500 "Unknown operation", .sendStatusEnd 500 typeErrorMessage], []⟩ := by
  simp only [applyRecommendations, hs]

/-- Branch lemma: the listing step returns the empty list. -/
theorem applyRun_emptyList (C : ApplyCollab) (baseRepo repoName : String)
    (projectIDs : List String) (typeParam : String)
    (listFn : List String → List Recommendation)
    (applyFn : String → List Recommendation → List Recommendation)
    (hs : strategyFor C (toUpperCase typeParam) = some (listFn, applyFn))
    (h0 : listFn projectIDs = []) :
    applyRecommendations C baseRepo repoName projectIDs typeParam =
      ⟨[.endBody "Nothing to apply"], [.listRecs (toUpperCase typeParam) projectIDs]⟩ := by
  simp only [applyRecommendations, hs]
  rw [if_pos (by simp [h0])]

/-- Branch lemma: the applier returns the empty claimed subset. -/
theorem applyRun_emptyClaim (C : ApplyCollab) (baseRepo repoName : String)
    (projectIDs : List String) (typeParam : String)
    (listFn : List String → List Recommendation)
    (applyFn : String → List Recommendation → List Recommendation)
    (hs : strategyFor C (toUpperCase typeParam) = some (listFn, applyFn))
    (hne : listFn projectIDs ≠ [])
    (hcl : applyFn repoName (listFn projectIDs) = []) :
    applyRecommendations C baseRepo repoName projectIDs typeParam =
      ⟨[.sendStatusEnd 201 ""],
       [.listRecs (toUpperCase typeParam) projectIDs,
        .cloneRepository ("git@" ++ baseRepo ++ "/" ++ repoName ++ ".git") repoName,
        .applyRecs (toUpperCase typeParam) repoName (listFn projectIDs)]⟩ := by
  simp only [applyRecommendations, hs]
  rw [if_neg (by simp [hne]), if_neg (by simp [hcl])]

/-- Branch lemma: the applier returns a non-empty claimed subset; the full
pipeline runs and the trace is the seven calls in program order. -/
theorem applyRun_claim (C : ApplyCollab) (baseRepo repoName : String)
    (projectIDs : List String) (typeParam : String)
    (listFn : List String → List Recommendation)
    (applyFn : String → List Recommendation → List Recommendation)
    (hs : strategyFor C (toUpperCase typeParam) = some (listFn, applyFn))
    (hne : listFn projectIDs ≠ [])
    (hcl : applyFn repoName (listFn projectIDs) ≠ []) :
    applyRecommendations C baseRepo repoName projectIDs typeParam =
      ⟨[.sendStatusEnd 201 ""],
       [.listRecs (toUpperCase typeParam) projectIDs,
        .cloneRepository ("git@" ++ baseRepo ++ "/" ++ repoName ++ ".git") repoName,
        .applyRecs (toUpperCase typeParam) repoName (listFn projectIDs),
        .commitChanges (commitMessage (toUpperCase typeParam) C.now) repoName,
        .createPullRequest ("git@" ++ baseRepo ++ "/" ++ repoName ++ ".git")
          (C.commitChanges (commitMessage (toUpperCase typeParam) C.now) repoName).branch
          (commitMessage (toUpperCase typeParam) C.now),
        .createCommit repoName
          (C.commitChanges (commitMessage (toUpperCase typeParam) C.now) repoName).commit
          (applyFn repoName (listFn projectIDs)),
        .setRecommendationStatus (applyFn repoName (listFn projectIDs)) "markClaimed"]⟩ := by
  simp only [applyRecommendations, hs]
  rw [if_neg (by simp [hne]), if_pos (by simp [List.length_pos, hcl])]

/-- Branch lemma: an actionable build event runs the full reconciliation
pipeline; the flattened ID list is the concatenation of the per-ancestor
index lookups. -/
theorem ciRun_actionable (C : CiCollab) (baseRepo st commitID repoName : String)
    (hst : st = "SUCCESS") :
    ci C baseRepo (.ok ⟨st, some ⟨commitID, repoName⟩⟩) =
      .responded (.sendStatus 201)
        ([Call.getParentCommits (baseRepo ++ "/" ++ repoName) commitID] ++
         (C.getParentCommits (baseRepo ++ "/" ++ repoName) commitID).map
           (fun c => Call.getCommit repoName c) ++
         [Call.getRecommendations
            (((C.getParentCommits (baseRepo ++ "/" ++ repoName) commitID).map
              (fun c => C.getCommit repoName c)).flatten),
          Call.setRecommendationStatus
            ((C.getRecommendations
              (((C.getParentCommits (baseRepo ++ "/" ++ repoName) commitID).map
                (fun c => C.getCommit repoName c)).flatten)).map
              (fun reco => Recommendation.mk reco.name reco.etag))
            "markSucceeded"]) := by
  subst hst
  simp only [ci, if_pos, foldl_append_eq_flatten, List.nil_append]

/-! Claim theorems. -/

/-- Claim C1 (code bug, evaluated at a failing input): for the unsupported
category disk no collaborator is ever invoked (the trace is empty), but the
handler does not terminate at the UnsupportedCategory outcome: the switch
default lacks a return, execution falls through, the undefined list
function throws, and the catch block issues a second 500 response after
the 500 Unknown operation response. -/
theorem claim_C1_unsupported_category_falls_through :
    applyRecommendations noopCollab "acct" "repo" [] "disk" =
      ⟨[Response.statusSend 500 "Unknown operation",
        Response.sendStatusEnd 500 typeErrorMessage], []⟩ :=
  applyRun_unknown noopCollab "acct" "repo" [] "disk" rfl

/-- Claim C2 counterexample: with ancestor commits c1 mapping to r1, r2 and
c2 mapping to r2, r3 in the persisted index, the reconciliation handler
passes the ID list r1, r2, r2, r3 to the status-change call: r2 is passed
twice, not exactly once as the claim states. -/
theorem claim_C2_counterexample :
    statusCallIDs (ciTrace (ci overlapCiCollab "acct"
        (Except.ok ⟨"SUCCESS", some ⟨"c", "repo"⟩⟩))) "markSucceeded" =
      ["r1", "r2", "r2", "r3"] ∧
    ¬ (statusCallIDs (ciTrace (ci overlapCiCollab "acct"
        (Except.ok ⟨"SUCCESS", some ⟨"c", "repo"⟩⟩))) "markSucceeded").count "r2" = 1 := by
  decide

/-- Claim C2 amended: for every actionable build event, the reconciliation
handler passes to the status-change call exactly the concatenation of the
per-ancestor recommendation-ID lists in lookup order, without removing
duplicates, provided the token-refresh collaborator answers one token per
requested ID in order. -/
theorem claim_C2_concat_without_dedup (C : CiCollab)
    (baseRepo st commitID repoName : String) (tok : String → String)
    (hst : st = "SUCCESS")
    (hfresh : ∀ ids, C.getRecommendations ids = ids.map (fun i => ⟨i, tok i⟩)) :
    statusCallIDs (ciTrace (ci C baseRepo (Except.ok ⟨st, some ⟨commitID, repoName⟩⟩)))
        "markSucceeded" =
      ((C.getParentCommits (baseRepo ++ "/" ++ repoName) commitID).map
        (fun c => C.getCommit repoName c)).flatten := by
  rw [ciRun_actionable C baseRepo st commitID repoName hst]
  simp only [ciTrace]
  rw [hfresh]
  simp only [statusCallIDs]
  rw [List.filterMap_append, List.filterMap_append, List.filterMap_map]
  have hA : List.filterMap (statusCallProj "markSucceeded")
      [Call.getParentCommits (baseRepo ++ "/" ++ repoName) commitID] = [] := rfl
  have hB : List.filterMap
      ((statusCallProj "markSucceeded") ∘ fun c => Call.getCommit repoName c)
      (C.getParentCommits (baseRepo ++ "/" ++ repoName) commitID) = [] := by
    have he : (statusCallProj "markSucceeded") ∘ (fun c => Call.getCommit repoName c) =
        fun _ => (none : Option (List String)) := funext fun c => rfl
    rw [he, filterMap_none]
  rw [hA, hB]
  simp only [List.nil_append, List.filterMap_cons, statusCallProj, if_pos,
    List.filterMap_nil, List.flatten]
  simp only [List.map_map, List.append_nil]
  rw [show ((fun x => x.id) ∘ (fun reco => Recommendation.mk reco.name reco.etag) ∘
      fun i => RecoResult.mk i (tok i)) = fun i : String => i from funext fun i => rfl]
  simp

/-- Witness for the amended claim C2, at the overlapping concrete index:
the status-change call receives the concatenation of the two ancestor
lookups. -/
theorem claim_C2_concat_without_dedup_witness :
    statusCallIDs (ciTrace (ci overlapCiCollab "acct"
        (Except.ok ⟨"SUCCESS", some ⟨"c", "repo"⟩⟩))) "markSucceeded" =
      ((overlapCiCollab.getParentCommits ("acct" ++ "/" ++ "repo") "c").map
        (fun c => overlapCiCollab.getCommit "repo" c)).flatten :=
  claim_C2_concat_without_dedup overlapCiCollab "acct" "SUCCESS" "c" "repo"
    (fun _ => "etag-fresh") rfl (fun _ => rfl)

/-- Claim C3: whenever the apply handler issues the markClaimed status
call for a claimed subset, the trace contains, strictly earlier, the
database write of the commit record for the same repository and the same
claimed recommendations. -/
theorem claim_C3_persist_before_claim (C : ApplyCollab) (baseRepo repoName : String)
    (projectIDs : List String) (typeParam : String) (recs : List Recommendation)
    (hmem : Call.setRecommendationStatus recs "markClaimed" ∈
      (applyRecommendations C baseRepo repoName projectIDs typeParam).trace) :
    ∃ pre mid post commitID,
      (applyRecommendations C baseRepo repoName projectIDs typeParam).trace =
        pre ++ Call.createCommit repoName commitID recs :: mid ++
          Call.setRecommendationStatus recs "markClaimed" :: post := by
  rcases hs : strategyFor C (toUpperCase typeParam) with _ | ⟨listFn, applyFn⟩
  · rw [applyRun_unknown C baseRepo repoName projectIDs typeParam hs] at hmem
    simp at hmem
  · by_cases h0 : listFn projectIDs = []
    · rw [applyRun_emptyList C baseRepo repoName projectIDs typeParam
        listFn applyFn hs h0] at hmem
      simp at hmem
    · by_cases h1 : applyFn repoName (listFn projectIDs) = []
      · rw [applyRun_emptyClaim C baseRepo repoName projectIDs typeParam
          listFn applyFn hs h0 h1] at hmem
        simp at hmem
      · have hrun := applyRun_claim C baseRepo repoName projectIDs typeParam
          listFn applyFn hs h0 h1
        rw [hrun] at hmem ⊢
        simp only [List.mem_cons, List.not_mem_nil, or_false] at hmem
        have hrecs : recs = applyFn repoName (listFn projectIDs) := by
          rcases hmem with h | h | h | h | h | h | h
          · exact Call.noConfusion h
          · exact Call.noConfusion h
          · exact Call.noConfusion h
          · exact Call.noConfusion h
          · exact Call.noConfusion h
          · exact Call.noConfusion h
          · exact (Call.setRecommendationStatus.inj h).1
        subst hrecs
        exact ⟨[.listRecs (toUpperCase typeParam) projectIDs,
          .cloneRepository ("git@" ++ baseRepo ++ "/" ++ repoName ++ ".git") repoName,
          .applyRecs (toUpperCase typeParam) repoName (listFn projectIDs),
          .commitChanges (commitMessage (toUpperCase typeParam) C.now) repoName,
          .createPullRequest ("git@" ++ baseRepo ++ "/" ++ repoName ++ ".git")
            (C.commitChanges (commitMessage (toUpperCase typeParam) C.now) repoName).branch
            (commitMessage (toUpperCase typeParam) C.now)], [], [],
          (C.commitChanges (commitMessage (toUpperCase typeParam) C.now) repoName).commit,
          by simp⟩

/-- Witness for claim C3: a run in which everything listed is claimed. -/
theorem claim_C3_persist_before_claim_witness :
    ∃ pre mid post commitID,
      (applyRecommendations passCollab "acct" "repo" ["p1"] "vm").trace =
        pre ++ Call.createCommit "repo" commitID [⟨"rec-1", "etag-1"⟩] :: mid ++
          Call.setRecommendationStatus [⟨"rec-1", "etag-1"⟩] "markClaimed" :: post :=
  claim_C3_persist_before_claim passCollab "acct" "repo" ["p1"] "vm"
    [⟨"rec-1", "etag-1"⟩] (by decide)

/-- Claim C4: when the listing step returns the empty list, the run makes
no clone, apply, commit, review, persistence or claim call (the trace
holds nothing but the listing call) and answers the no-op success
response Nothing to apply. -/
theorem claim_C4_empty_listing_noop (C : ApplyCollab) (baseRepo repoName : String)
    (projectIDs : List String) (typeParam : String)
    (listFn : List String → List Recommendation)
    (applyFn : String → List Recommendation → List Recommendation)
    (hs : strategyFor C (toUpperCase typeParam) = some (listFn, applyFn))
    (h0 : listFn projectIDs = []) :
    (applyRecommendations C baseRepo repoName projectIDs typeParam).responses =
      [Response.endBody "Nothing to apply"] ∧
    (applyRecommendations C baseRepo repoName projectIDs typeParam).trace =
      [Call.listRecs (toUpperCase typeParam) projectIDs] := by
  rw [applyRun_emptyList C baseRepo repoName projectIDs typeParam listFn applyFn hs h0]
  exact ⟨rfl, rfl⟩

/-- Witness for claim C4: a listing that returns nothing. -/
theorem claim_C4_empty_listing_noop_witness :
    (applyRecommendations noopCollab "acct" "repo" [] "vm").responses =
      [Response.endBody "Nothing to apply"] ∧
    (applyRecommendations noopCollab "acct" "repo" [] "vm").trace =
      [Call.listRecs (toUpperCase "vm") []] :=
  claim_C4_empty_listing_noop noopCollab "acct" "repo" [] "vm"
    noopCollab.listVMResizeRecommendations noopCollab.applyVMResizeRecommendations rfl rfl

/-- Claim C5: when the applier returns the empty claimed subset, the run
makes no commit, review, persistence or claim call (the trace ends after
listing, clone and apply) and answers the success response. -/
theorem claim_C5_empty_claim_noop (C : ApplyCollab) (baseRepo repoName : String)
    (projectIDs : List String) (typeParam : String)
    (listFn : List String → List Recommendation)
    (applyFn : String → List Recommendation → List Recommendation)
    (hs : strategyFor C (toUpperCase typeParam) = some (listFn, applyFn))
    (hne : listFn projectIDs ≠ [])
    (hcl : applyFn repoName (listFn projectIDs) = []) :
    (applyRecommendations C baseRepo repoName projectIDs typeParam).responses =
      [Response.sendStatusEnd 201 ""] ∧
    (applyRecommendations C baseRepo repoName projectIDs typeParam).trace =
      [Call.listRecs (toUpperCase typeParam) projectIDs,
       Call.cloneRepository ("git@" ++ baseRepo ++ "/" ++ repoName ++ ".git") repoName,
       Call.applyRecs (toUpperCase typeParam) repoName (listFn projectIDs)] := by
  rw [applyRun_emptyClaim C baseRepo repoName projectIDs typeParam listFn applyFn hs hne hcl]
  exact ⟨rfl, rfl⟩

/-- Witness for claim C5: one recommendation is listed and none claimed. -/
theorem claim_C5_empty_claim_noop_witness :
    (applyRecommendations dropCollab "acct" "repo" ["p1"] "vm").responses =
      [Response.sendStatusEnd 201 ""] ∧
    (applyRecommendations dropCollab "acct" "repo" ["p1"] "vm").trace =
      [Call.listRecs (toUpperCase "vm") ["p1"],
       Call.cloneRepository ("git@" ++ "acct" ++ "/" ++ "repo" ++ ".git") "repo",
       Call.applyRecs (toUpperCase "vm") "repo"
         (dropCollab.listVMResizeRecommendations ["p1"])] :=
  claim_C5_empty_claim_noop dropCollab "acct" "repo" ["p1"] "vm"
    dropCollab.listVMResizeRecommendations dropCollab.applyVMResizeRecommendations
    rfl (by decide) rfl

/-- Claim C6: a build event whose decoded payload has a status other than
SUCCESS, or no substitutions object, is answered with the ignored status
200 and the handler makes no collaborator call at all. -/
theorem claim_C6_nonactionable_ignored (C : CiCollab) (baseRepo : String)
    (p : BuildPayload)
    (h : p.status ≠ "SUCCESS" ∨ p.substitutions = none) :
    ci C baseRepo (Except.ok p) = CiOutcome.responded (Response.sendStatus 200) [] := by
  rcases h with h | h
  · simp only [ci, if_neg h]
  · by_cases hs : p.status = "SUCCESS"
    · simp only [ci, if_pos hs, h]
    · simp only [ci, if_neg hs]

/-- Witness for claim C6: a failed build event with no substitutions. -/
theorem claim_C6_nonactionable_ignored_witness :
    ci noopCiCollab "acct" (Except.ok ⟨"FAILURE", none⟩) =
      CiOutcome.responded (Response.sendStatus 200) [] :=
  claim_C6_nonactionable_ignored noopCiCollab "acct" ⟨"FAILURE", none⟩ (Or.inl (by decide))

/-- Claim C7 (code bug, evaluated at a failing input): the base64/JSON
decoding of the build event happens before the try block of the ci
handler, so a decode failure escapes the handler as an uncaught exception:
no response at all is written, in particular no error status carrying the
textual description of the failure. -/
theorem claim_C7_decode_failure_escapes :
    ci noopCiCollab "acct"
        (Except.error "SyntaxError: Unexpected token o in JSON at position 0") =
      CiOutcome.uncaught "SyntaxError: Unexpected token o in JSON at position 0" := rfl

/-- Claim C8: every run that reaches the commit step commits with a
message that contains VM Rightsizing for category VM and IAM Updates for
category IAM, and that ends with the timestamp taken at commit time. -/
theorem claim_C8_commit_message (C : ApplyCollab) (baseRepo repoName : String)
    (projectIDs : List String) (typeParam : String)
    (listFn : List String → List Recommendation)
    (applyFn : String → List Recommendation → List Recommendation)
    (hs : strategyFor C (toUpperCase typeParam) = some (listFn, applyFn))
    (hne : listFn projectIDs ≠ [])
    (hcl : applyFn repoName (listFn projectIDs) ≠ []) :
    ∃ msg, Call.commitChanges msg repoName ∈
        (applyRecommendations C baseRepo repoName projectIDs typeParam).trace ∧
      (toUpperCase typeParam = "VM" → ∃ a b, msg = a ++ "VM Rightsizing" ++ b) ∧
      (toUpperCase typeParam = "IAM" → ∃ a b, msg = a ++ "IAM Updates" ++ b) ∧
      ∃ a, msg = a ++ C.now := by
  refine ⟨commitMessage (toUpperCase typeParam) C.now, ?_, ?_, ?_, ?_⟩
  · rw [applyRun_claim C baseRepo repoName projectIDs typeParam listFn applyFn hs hne hcl]
    simp
  · intro hVM
    refine ⟨"Recommended ", " as on " ++ C.now, ?_⟩
    simp only [commitMessage, if_pos hVM]
    rw [← string_append_assoc]
    rfl
  · intro hIAM
    have hVM : toUpperCase typeParam ≠ "VM" := by
      rw [hIAM]
      decide
    refine ⟨"Recommended ", " as on " ++ C.now, ?_⟩
    simp only [commitMessage, if_neg hVM]
    rw [← string_append_assoc]
    rfl
  · by_cases hVM : toUpperCase typeParam = "VM"
    · exact ⟨"Recommended VM Rightsizing as on ", by simp only [commitMessage, if_pos hVM]⟩
    · exact ⟨"Recommended IAM Updates as on ", by simp only [commitMessage, if_neg hVM]⟩

/-- Witness for claim C8: a VM run that reaches the commit step. -/
theorem claim_C8_commit_message_witness :
    ∃ msg, Call.commitChanges msg "repo" ∈
        (applyRecommendations passCollab "acct" "repo" ["p1"] "vm").trace ∧
      (toUpperCase "vm" = "VM" → ∃ a b, msg = a ++ "VM Rightsizing" ++ b) ∧
      (toUpperCase "vm" = "IAM" → ∃ a b, msg = a ++ "IAM Updates" ++ b) ∧
      ∃ a, msg = a ++ passCollab.now :=
  claim_C8_commit_message passCollab "acct" "repo" ["p1"] "vm"
    passCollab.listVMResizeRecommendations passCollab.applyVMResizeRecommendations
    rfl (by decide) (by decide)

/-- Claim C9: the route category parameter is uppercased before the
strategy switch, so any two spellings with the same uppercasing make the
handler behave identically; in particular every lowercase or mixed-case
spelling of a supported category behaves as its uppercase form. -/
theorem claim_C9_case_insensitive_dispatch (C : ApplyCollab) (baseRepo repoName : String)
    (projectIDs : List String) (s u : String)
    (h : toUpperCase s = toUpperCase u) :
    applyRecommendations C baseRepo repoName projectIDs s =
      applyRecommendations C baseRepo repoName projectIDs u := by
  unfold applyRecommendations
  rw [h]

/-- Witness for claim C9: the lowercase spelling vm behaves as VM. -/
theorem claim_C9_case_insensitive_dispatch_witness :
    applyRecommendations noopCollab "acct" "repo" [] "vm" =
      applyRecommendations noopCollab "acct" "repo" [] "VM" :=
  claim_C9_case_insensitive_dispatch noopCollab "acct" "repo" [] "vm" "VM" (by decide)

/-- Claim C10: an actionable build event all of whose ancestor commits
have no record in the persisted index is processed without error: the
handler still calls the token refresh and the status change with the
empty ID list and answers the success status 201, provided the token
refresh answers the empty list on the empty request. -/
theorem claim_C10_empty_index_success (C : CiCollab)
    (baseRepo st commitID repoName : String)
    (hst : st = "SUCCESS")
    (hempty : ∀ c ∈ C.getParentCommits (baseRepo ++ "/" ++ repoName) commitID,
        C.getCommit repoName c = [])
    (hfresh : C.getRecommendations [] = []) :
    ci C baseRepo (Except.ok ⟨st, some ⟨commitID, repoName⟩⟩) =
      CiOutcome.responded (Response.sendStatus 201)
        ([Call.getParentCommits (baseRepo ++ "/" ++ repoName) commitID] ++
         (C.getParentCommits (baseRepo ++ "/" ++ repoName) commitID).map
           (fun c => Call.getCommit repoName c) ++
         [Call.getRecommendations [],
          Call.setRecommendationStatus [] "markSucceeded"]) := by
  have hflat : ((C.getParentCommits (baseRepo ++ "/" ++ repoName) commitID).map
      (fun c => C.getCommit repoName c)).flatten = [] := by
    simp only [List.flatten_eq_nil_iff, List.mem_map, forall_exists_index, and_imp]
    rintro x c hc rfl
    exact hempty c hc
  rw [ciRun_actionable C baseRepo st commitID repoName hst, hflat, hfresh]
  simp

/-- Witness for claim C10: two parent commits, an index with no record. -/
theorem claim_C10_empty_index_success_witness :
    ci emptyIndexCiCollab "acct" (Except.ok ⟨"SUCCESS", some ⟨"sha", "repo"⟩⟩) =
      CiOutcome.responded (Response.sendStatus 201)
        ([Call.getParentCommits ("acct" ++ "/" ++ "repo") "sha"] ++
         (emptyIndexCiCollab.getParentCommits ("acct" ++ "/" ++ "repo") "sha").map
           (fun c => Call.getCommit "repo" c) ++
         [Call.getRecommendations [],
          Call.setRecommendationStatus [] "markSucceeded"]) :=
  claim_C10_empty_index_success emptyIndexCiCollab "acct" "SUCCESS" "sha" "repo"
    rfl (fun _ _ => rfl) rfl

end ParserService
